import Mathlib

/-!
Shallow embedding of the dimmable-light brightness-mapping core
(src/dimmable_light.h and src/dimmable_light_linearized.h).

Machine integers are modelled as `Nat` with explicit `% 2^w` at the points
where the C++ code converts or could wrap:
* `uint8_t` function parameters are reduced `% 256` on entry;
* the `(uint16_t)` cast in the brightness mapping is `% 65536`;
* the `(uint32_t)` cast in the delay computation is `% 4294967296`;
* assignment of a wider expression to `uint8_t`/`uint16_t` is `% 256`/`% 65536`.

Calls into the external `Thyristor` collaborator (`setDelay`, `turnOn`,
`turnOff`) are recorded as an event list, so a `setBrightness` step returns
the successor state together with the calls it forwarded to the controller.
The `double` polynomial of the linearized variant is modelled by exact
rational arithmetic on the source's coefficients: no claim here depends on
the rounded value of the polynomial, only on which call is emitted and that
equal inputs yield equal calls.
-/

/-- Calls a mapper channel forwards to the external Thyristor controller.
`setDelay` carries the integer delay of the phase-delay variant;
`setDelayMs` carries the (rational-modelled) `double` conduction time of the
linearized variant, whose conversion at the Thyristor boundary is outside
this source set. -/
inductive Ev where
  | setDelay (d : Nat)
  | setDelayMs (q : ℚ)
  | turnOn
  | turnOff
deriving DecidableEq, Repr

/-- Per-channel state: `brightness` (input scale, `uint8_t`) and
`mMinBrightness` (hardware scale, `uint8_t`), the two data members of both
mapper classes. -/
structure LightState where
  brightness : Nat
  mMinBrightness : Nat
deriving DecidableEq, Repr

namespace DimmableLight

/-- `static constexpr uint8_t MAX_BRIGHTNESS = 200`. -/
def MAX_BRIGHTNESS : Nat := 200

/-- `static constexpr uint8_t MAX_MIN_BRIGHTNESS = 55`. -/
def MAX_MIN_BRIGHTNESS : Nat := 55

/-- `static constexpr uint8_t HW_MAX = 255` (local to `setBrightness`). -/
def HW_MAX : Nat := 255

/-- The input clamp at the top of `DimmableLight::setBrightness`: the
argument arrives as `uint8_t` (hence `% 256`) and values above
`MAX_BRIGHTNESS` are clamped to `MAX_BRIGHTNESS`. -/
def clampInput (bri : Nat) : Nat :=
  let b := bri % 256
  if b > MAX_BRIGHTNESS then MAX_BRIGHTNESS else b

/-- The hardware-brightness mapping of `DimmableLight::setBrightness`
(lines 66-75): input 0 maps to 0; with `mMinBrightness == 0` the input is
scaled by `HW_MAX / MAX_BRIGHTNESS`; otherwise `1..MAX_BRIGHTNESS` is
rescaled onto `mMinBrightness..HW_MAX`.  The `(uint16_t)` casts and the
`uint8_t` destination of `hwBri` appear as `% 65536` and `% 256`. -/
def hwBrightness (bri mMin : Nat) : Nat :=
  if bri = 0 then 0
  else if mMin = 0 then ((bri * HW_MAX) % 65536 / MAX_BRIGHTNESS) % 256
  else (mMin + ((bri - 1) * (HW_MAX - mMin)) % 65536 / (MAX_BRIGHTNESS - 1)) % 256

/-- The build-time frequency strategy selected by the `NETWORK_FREQ_*`
preprocessor symbols in `DimmableLight::setBrightness`; the `runtime` case
carries the value `Thyristor::getSemiPeriod()` returns at call time. -/
inductive FreqStrategy where
  | fixed50
  | fixed60
  | runtime (semiPeriod : Nat)
deriving DecidableEq, Repr

/-- The semi-period each strategy uses: 10000 us at fixed 50 Hz, 8333 us at
fixed 60 Hz, and the controller-reported value under runtime detection. -/
def semiPeriodOf : FreqStrategy → Nat
  | FreqStrategy.fixed50 => 10000
  | FreqStrategy.fixed60 => 8333
  | FreqStrategy.runtime sp => sp

/-- Guard for the runtime strategy: `Thyristor::getSemiPeriod()` is an
integer number of microseconds that fits `uint16_t`. -/
def spOk : FreqStrategy → Bool
  | FreqStrategy.runtime sp => decide (sp ≤ 65535)
  | _ => true

/-- The `newDelay` computation of `DimmableLight::setBrightness`
(lines 77-84): `semiPeriod - (uint16_t)(((uint32_t)hwBri * semiPeriod) / 255)`
with the chosen strategy's semi-period.  `hwBri` is the `uint8_t` hardware
brightness, for which the subtraction never underflows. -/
def delayFor (s : FreqStrategy) (hwBri : Nat) : Nat :=
  match s with
  | FreqStrategy.fixed50 => (10000 - ((hwBri * 10000) % 4294967296 / 255) % 65536) % 65536
  | FreqStrategy.fixed60 => (8333 - ((hwBri * 8333) % 4294967296 / 255) % 65536) % 65536
  | FreqStrategy.runtime sp => (sp - ((hwBri * sp) % 4294967296 / 255) % 65536) % 65536

/-- `DimmableLight::setBrightness`: clamp and store the input, map it to a
hardware brightness, convert that to a firing delay, and forward the delay
to the controller via `thyristor.setDelay`. -/
def setBrightness (s : FreqStrategy) (st : LightState) (bri : Nat) :
    LightState × List Ev :=
  let b := clampInput bri
  let hwBri := hwBrightness b st.mMinBrightness
  ({ st with brightness := b }, [Ev.setDelay (delayFor s hwBri)])

/-- `DimmableLight::getBrightness`: returns the stored input-scale value. -/
def getBrightness (st : LightState) : Nat :=
  st.brightness

/-- `DimmableLight::getMinBrightness`. -/
def getMinBrightness (st : LightState) : Nat :=
  st.mMinBrightness

/-- `DimmableLight::setMinBrightness` (lines 106-115): clamp the `uint8_t`
argument to `MAX_MIN_BRIGHTNESS`, store it, and if the stored brightness is
non-zero reapply it through `setBrightness`. -/
def setMinBrightness (s : FreqStrategy) (st : LightState) (minBrightness : Nat) :
    LightState × List Ev :=
  let m0 := minBrightness % 256
  let m := if m0 > MAX_MIN_BRIGHTNESS then MAX_MIN_BRIGHTNESS else m0
  let st1 : LightState := { st with mMinBrightness := m }
  if st1.brightness > 0 then setBrightness s st1 st1.brightness else (st1, [])

/-- `DimmableLight::turnOn`: `setBrightness(MAX_BRIGHTNESS)`. -/
def turnOn (s : FreqStrategy) (st : LightState) : LightState × List Ev :=
  setBrightness s st MAX_BRIGHTNESS

/-- `DimmableLight::turnOff`: `setBrightness(0)`. -/
def turnOff (s : FreqStrategy) (st : LightState) : LightState × List Ev :=
  setBrightness s st 0

end DimmableLight

namespace DimmableLightLinearized

/-- `static constexpr uint8_t MAX_BRIGHTNESS = 200`. -/
def MAX_BRIGHTNESS : Nat := 200

/-- `static constexpr uint8_t MAX_MIN_BRIGHTNESS = 55`. -/
def MAX_MIN_BRIGHTNESS : Nat := 55

/-- `static constexpr uint8_t HW_MAX = 255` (local to `setBrightness`). -/
def HW_MAX : Nat := 255

/-- `static const uint8_t N = 8`: the channel capacity of the linearized
class (the phase-delay class takes its capacity from `Thyristor::N`). -/
def N : Nat := 8

/-- Input clamp of `DimmableLightLinearized::setBrightness`, identical to
the phase-delay variant's. -/
def clampInput (bri : Nat) : Nat :=
  let b := bri % 256
  if b > MAX_BRIGHTNESS then MAX_BRIGHTNESS else b

/-- Hardware-brightness mapping of `DimmableLightLinearized::setBrightness`
(lines 69-78), textually identical to the phase-delay variant's. -/
def hwBrightness (bri mMin : Nat) : Nat :=
  if bri = 0 then 0
  else if mMin = 0 then ((bri * HW_MAX) % 65536 / MAX_BRIGHTNESS) % 256
  else (mMin + ((bri - 1) * (HW_MAX - mMin)) % 65536 / (MAX_BRIGHTNESS - 1)) % 256

/-- The 50 Hz quintic of `DimmableLightLinearized::setBrightness`, with the
source's coefficients read as exact rationals. -/
def pol50 (h : Nat) : ℚ :=
  -1.5034e-10 * (h : ℚ) ^ 5 + 9.5843e-08 * (h : ℚ) ^ 4 - 2.2953e-05 * (h : ℚ) ^ 3
    + 0.0025471 * (h : ℚ) ^ 2 - 0.14965 * (h : ℚ) + 9.9846

/-- The 60 Hz quintic of `DimmableLightLinearized::setBrightness`, with the
source's coefficients read as exact rationals. -/
def pol60 (h : Nat) : ℚ :=
  -1.2528e-10 * (h : ℚ) ^ 5 + 7.9866e-08 * (h : ℚ) ^ 4 - 1.9126e-05 * (h : ℚ) ^ 3
    + 0.0021225 * (h : ℚ) ^ 2 - 0.12471 * (h : ℚ) + 8.3201

/-- Frequency strategy of the linearized variant; the `runtime` case carries
the value `Thyristor::getFrequency()` returns at call time (a `float`,
compared against the exact constants 50 and 60, modelled as `ℚ`). -/
inductive LinStrategy where
  | fixed50
  | fixed60
  | runtime (frequency : ℚ)
deriving DecidableEq

/-- `DimmableLightLinearized::setBrightness`: clamp and store the input, map
it to a hardware brightness, then either evaluate the frequency-specific
quintic (times 1000) and forward it via `thyristor.setDelay`, or — under
runtime detection at a frequency other than 50 and 60 — call
`thyristor.turnOn` when `hwBri > 0` and `thyristor.turnOff` otherwise. -/
def setBrightness (s : LinStrategy) (st : LightState) (bri : Nat) :
    LightState × List Ev :=
  let b := clampInput bri
  let hwBri := hwBrightness b st.mMinBrightness
  let st' : LightState := { st with brightness := b }
  match s with
  | LinStrategy.fixed50 => (st', [Ev.setDelayMs (pol50 hwBri * 1000)])
  | LinStrategy.fixed60 => (st', [Ev.setDelayMs (pol60 hwBri * 1000)])
  | LinStrategy.runtime f =>
    if f = 50 then (st', [Ev.setDelayMs (pol50 hwBri * 1000)])
    else if f = 60 then (st', [Ev.setDelayMs (pol60 hwBri * 1000)])
    else if hwBri > 0 then (st', [Ev.turnOn]) else (st', [Ev.turnOff])

/-- `DimmableLightLinearized::getBrightness`. -/
def getBrightness (st : LightState) : Nat :=
  st.brightness

/-- `DimmableLightLinearized::setMinBrightness`, identical in structure to
the phase-delay variant's. -/
def setMinBrightness (s : LinStrategy) (st : LightState) (minBrightness : Nat) :
    LightState × List Ev :=
  let m0 := minBrightness % 256
  let m := if m0 > MAX_MIN_BRIGHTNESS then MAX_MIN_BRIGHTNESS else m0
  let st1 : LightState := { st with mMinBrightness := m }
  if st1.brightness > 0 then setBrightness s st1 st1.brightness else (st1, [])

/-- `DimmableLightLinearized::turnOff`: `setBrightness(0)` (the linearized
class has no `turnOn` sugar). -/
def turnOff (s : LinStrategy) (st : LightState) : LightState × List Ev :=
  setBrightness s st 0

end DimmableLightLinearized

/-! ### Channel registry

Both classes keep a process-wide `static uint8_t nLights` counter against a
capacity (`Thyristor::N` for the phase-delay class, the literal 8 for the
linearized class; the linearized value 8 is the one fully visible in this
source set).  The constructor increments the counter only while below
capacity; the destructor decrements it unconditionally. -/

/-- The constructor's counter update (`dimmable_light.h` lines 39-44 and
`dimmable_light_linearized.h` lines 42-47): increment while below the
capacity `cap`, otherwise only print a diagnostic and leave the counter. -/
def constructCount (cap n : Nat) : Nat :=
  if n < cap then n + 1 else n

/-- The destructor's counter update: `nLights--` on a `uint8_t`,
unconditionally, wrapping modulo 256. -/
def destroyCount (n : Nat) : Nat :=
  (n + 255) % 256

/-- `DimmableLight::DimmableLight(pin, minBrightness)` restricted to its
observable model state: the counter update together with the initial member
state (brightness 0, the `uint8_t` minimum hint clamped to
`MAX_MIN_BRIGHTNESS`).  The members are initialized, and `thyristor(pin)`
is constructed, whether or not the capacity check succeeds. -/
def constructLight (cap nLights minBrightness : Nat) : Nat × LightState :=
  let m0 := minBrightness % 256
  (constructCount cap nLights,
   { brightness := 0
     mMinBrightness :=
       if m0 > DimmableLight.MAX_MIN_BRIGHTNESS then DimmableLight.MAX_MIN_BRIGHTNESS
       else m0 })

/-- A lifecycle operation on the registry: one constructor call or one
destructor call. -/
inductive RegOp where
  | mkLight
  | destroyLight
deriving DecidableEq, Repr

/-- Run a sequence of constructor/destructor calls against the counter,
starting from counter value `n`. -/
def regRun (cap : Nat) : Nat → List RegOp → Nat
  | n, [] => n
  | n, RegOp.mkLight :: ops => regRun cap (constructCount cap n) ops
  | n, RegOp.destroyLight :: ops => regRun cap (destroyCount n) ops

/-- A lifecycle sequence is realizable in C++ when every destructor call
destroys an object that exists: `k` tracks the number of live objects
(constructed and not yet destroyed, inert ones included). -/
def objValid : Nat → List RegOp → Bool
  | _, [] => true
  | k, RegOp.mkLight :: ops => objValid (k + 1) ops
  | k, RegOp.destroyLight :: ops => decide (0 < k) && objValid (k - 1) ops

/-! ### Helper lemmas shared by the claim theorems -/

/-- The two mapper variants compute hardware brightness identically: the
bodies of the two `setBrightness` mappings are textually the same. -/
theorem hwBrightnessLin_eq_hw (b m : Nat) :
    DimmableLightLinearized.hwBrightness b m = DimmableLight.hwBrightness b m := rfl

/-- In the input/configuration ranges that `setBrightness` and the
minimum-brightness clamp establish, none of the intermediate casts of the
hardware-brightness mapping truncates, so the mapping equals the pure
integer formula of the specification. -/
theorem hwBrightness_eq_formula (b m : Nat) (hb1 : 1 ≤ b) (hb2 : b ≤ 200)
    (hm : m ≤ 55) :
    DimmableLight.hwBrightness b m =
      if m = 0 then b * 255 / 200 else m + (b - 1) * (255 - m) / 199 := by
  unfold DimmableLight.hwBrightness DimmableLight.HW_MAX DimmableLight.MAX_BRIGHTNESS
  rw [if_neg (by omega : ¬ b = 0)]
  by_cases hm0 : m = 0
  · rw [if_pos hm0, if_pos hm0]
    rw [Nat.mod_eq_of_lt (by omega : b * 255 < 65536)]
    have h2 : b * 255 / 200 ≤ 51000 / 200 := Nat.div_le_div_right (by omega)
    norm_num at h2
    rw [Nat.mod_eq_of_lt (by omega : b * 255 / 200 < 256)]
  · rw [if_neg hm0, if_neg hm0]
    have h1 : (b - 1) * (255 - m) ≤ 199 * 255 :=
      Nat.mul_le_mul (by omega) (by omega)
    rw [Nat.mod_eq_of_lt (by omega : (b - 1) * (255 - m) < 65536)]
    have h2 : (b - 1) * (255 - m) / 199 ≤ 199 * (255 - m) / 199 :=
      Nat.div_le_div_right (Nat.mul_le_mul_right _ (by omega))
    rw [Nat.mul_div_cancel_left _ (by norm_num : (0:ℕ) < 199)] at h2
    rw [Nat.mod_eq_of_lt (by omega : m + (b - 1) * (255 - m) / 199 < 256)]

/-- The hardware brightness is a `uint8_t`: it never exceeds 255. -/
theorem hwBrightness_le (b m : Nat) : DimmableLight.hwBrightness b m ≤ 255 := by
  unfold DimmableLight.hwBrightness
  split
  · omega
  · split
    · have := Nat.mod_lt ((b * DimmableLight.HW_MAX) % 65536 / DimmableLight.MAX_BRIGHTNESS)
        (by norm_num : 0 < 256)
      omega
    · have := Nat.mod_lt (m + ((b - 1) * (DimmableLight.HW_MAX - m)) % 65536 /
        (DimmableLight.MAX_BRIGHTNESS - 1)) (by norm_num : 0 < 256)
      omega

/-- For `uint8_t` inputs the input clamp is `min b 200`. -/
theorem clampInput_eq_min (b : Nat) (hb : b ≤ 255) :
    DimmableLight.clampInput b = min b 200 := by
  simp only [DimmableLight.clampInput, DimmableLight.MAX_BRIGHTNESS]
  rw [Nat.mod_eq_of_lt (by omega : b < 256)]
  split <;> omega

/-- The two variants clamp input identically. -/
theorem clampInputLin_eq (b : Nat) :
    DimmableLightLinearized.clampInput b = DimmableLight.clampInput b := rfl

/-! ### Claim theorems -/

/-- C1: for every input `b` with `1 ≤ b ≤ 200` and every configured
`minBrightness` (hence at most 55), the hardware brightness is
`(b*255)/200` when the minimum is 0 and
`minBrightness + ((b-1)*(255-minBrightness))/199` otherwise, by truncating
integer arithmetic, in both mapper variants. -/
theorem c1_hwBrightness_formula (b m : Nat) (hb1 : 1 ≤ b) (hb2 : b ≤ 200)
    (hm : m ≤ 55) :
    DimmableLight.hwBrightness b m =
      (if m = 0 then b * 255 / 200 else m + (b - 1) * (255 - m) / 199) ∧
    DimmableLightLinearized.hwBrightness b m =
      (if m = 0 then b * 255 / 200 else m + (b - 1) * (255 - m) / 199) := by
  refine ⟨hwBrightness_eq_formula b m hb1 hb2 hm, ?_⟩
  rw [hwBrightnessLin_eq_hw]
  exact hwBrightness_eq_formula b m hb1 hb2 hm

/-- Witness for C1 at `b = 7`, `minBrightness = 30`. -/
theorem c1_hwBrightness_formula_witness :
    1 ≤ 7 ∧ 7 ≤ 200 ∧ 30 ≤ 55 ∧
    (DimmableLight.hwBrightness 7 30 =
      (if 30 = 0 then 7 * 255 / 200 else 30 + (7 - 1) * (255 - 30) / 199) ∧
     DimmableLightLinearized.hwBrightness 7 30 =
      (if 30 = 0 then 7 * 255 / 200 else 30 + (7 - 1) * (255 - 30) / 199)) :=
  ⟨by decide, by decide, by decide,
   c1_hwBrightness_formula 7 30 (by decide) (by decide) (by decide)⟩

/-- C4: with a fixed configured minimum, the hardware-brightness mapping is
monotone on non-zero inputs of the valid domain, in both mapper variants. -/
theorem c4_hwBrightness_monotone (m b1 b2 : Nat) (hm : m ≤ 55) (h1 : 1 ≤ b1)
    (h12 : b1 < b2) (h2 : b2 ≤ 200) :
    DimmableLight.hwBrightness b1 m ≤ DimmableLight.hwBrightness b2 m ∧
    DimmableLightLinearized.hwBrightness b1 m ≤
      DimmableLightLinearized.hwBrightness b2 m := by
  have key : DimmableLight.hwBrightness b1 m ≤ DimmableLight.hwBrightness b2 m := by
    rw [hwBrightness_eq_formula b1 m h1 (by omega) hm,
        hwBrightness_eq_formula b2 m (by omega) h2 hm]
    by_cases hm0 : m = 0
    · rw [if_pos hm0, if_pos hm0]
      exact Nat.div_le_div_right (Nat.mul_le_mul_right _ (by omega))
    · rw [if_neg hm0, if_neg hm0]
      exact Nat.add_le_add_left
        (Nat.div_le_div_right (Nat.mul_le_mul_right _ (by omega))) m
  exact ⟨key, by rw [hwBrightnessLin_eq_hw, hwBrightnessLin_eq_hw]; exact key⟩

/-- Witness for C4 at `m = 10`, `b1 = 5`, `b2 = 9`. -/
theorem c4_hwBrightness_monotone_witness :
    10 ≤ 55 ∧ 1 ≤ 5 ∧ 5 < 9 ∧ 9 ≤ 200 ∧
    (DimmableLight.hwBrightness 5 10 ≤ DimmableLight.hwBrightness 9 10 ∧
     DimmableLightLinearized.hwBrightness 5 10 ≤
       DimmableLightLinearized.hwBrightness 9 10) :=
  ⟨by decide, by decide, by decide, by decide,
   c4_hwBrightness_monotone 10 5 9 (by decide) (by decide) (by decide) (by decide)⟩

/-- In the delay computation none of the casts truncates and the
subtraction never underflows, so the forwarded delay is exactly
`semiPeriod - (hwBri * semiPeriod) / 255`. -/
theorem delayFor_eq (s : DimmableLight.FreqStrategy) (hw : Nat) (hhw : hw ≤ 255)
    (hsp : DimmableLight.spOk s = true) :
    DimmableLight.delayFor s hw =
      DimmableLight.semiPeriodOf s - hw * DimmableLight.semiPeriodOf s / 255 := by
  cases s with
  | fixed50 =>
    show (10000 - (hw * 10000 % 4294967296 / 255) % 65536) % 65536 = _
    rw [Nat.mod_eq_of_lt (by omega : hw * 10000 < 4294967296)]
    have h2 : hw * 10000 / 255 ≤ 2550000 / 255 := Nat.div_le_div_right (by omega)
    norm_num at h2
    rw [Nat.mod_eq_of_lt (by omega : hw * 10000 / 255 < 65536),
        Nat.mod_eq_of_lt (by omega : 10000 - hw * 10000 / 255 < 65536)]
    rfl
  | fixed60 =>
    show (8333 - (hw * 8333 % 4294967296 / 255) % 65536) % 65536 = _
    rw [Nat.mod_eq_of_lt (by omega : hw * 8333 < 4294967296)]
    have h2 : hw * 8333 / 255 ≤ 2124915 / 255 := Nat.div_le_div_right (by omega)
    norm_num at h2
    rw [Nat.mod_eq_of_lt (by omega : hw * 8333 / 255 < 65536),
        Nat.mod_eq_of_lt (by omega : 8333 - hw * 8333 / 255 < 65536)]
    rfl
  | runtime sp =>
    have hsp' : sp ≤ 65535 := by
      simpa [DimmableLight.spOk] using hsp
    show (sp - (hw * sp % 4294967296 / 255) % 65536) % 65536 = _
    have h1 : hw * sp ≤ 255 * 65535 := Nat.mul_le_mul hhw hsp'
    rw [Nat.mod_eq_of_lt (by omega : hw * sp < 4294967296)]
    have h2 : hw * sp / 255 ≤ 255 * sp / 255 :=
      Nat.div_le_div_right (Nat.mul_le_mul_right _ hhw)
    rw [Nat.mul_div_cancel_left _ (by norm_num : (0:ℕ) < 255)] at h2
    rw [Nat.mod_eq_of_lt (by omega : hw * sp / 255 < 65536),
        Nat.mod_eq_of_lt (by omega : sp - hw * sp / 255 < 65536)]
    rfl

/-- C2: the Phase-Delay `setBrightness` forwards to the controller exactly
the delay `semiPeriod - (hwBri * semiPeriod) / 255` (truncating division),
with semi-period 10000 us under fixed 50 Hz, 8333 us under fixed 60 Hz, and
the `Thyristor::getSemiPeriod()` value under runtime detection. -/
theorem c2_delay_forwarded (s : DimmableLight.FreqStrategy) (st : LightState)
    (bri : Nat) (hsp : DimmableLight.spOk s = true) :
    (DimmableLight.setBrightness s st bri).2 =
      [Ev.setDelay (DimmableLight.semiPeriodOf s -
        DimmableLight.hwBrightness (DimmableLight.clampInput bri) st.mMinBrightness *
          DimmableLight.semiPeriodOf s / 255)] ∧
    DimmableLight.semiPeriodOf DimmableLight.FreqStrategy.fixed50 = 10000 ∧
    DimmableLight.semiPeriodOf DimmableLight.FreqStrategy.fixed60 = 8333 := by
  refine ⟨?_, rfl, rfl⟩
  show [Ev.setDelay (DimmableLight.delayFor s
      (DimmableLight.hwBrightness (DimmableLight.clampInput bri) st.mMinBrightness))] = _
  rw [delayFor_eq s _ (hwBrightness_le _ _) hsp]

/-- Witness for C2 under runtime detection with semi-period 9000 us. -/
theorem c2_delay_forwarded_witness :
    DimmableLight.spOk (DimmableLight.FreqStrategy.runtime 9000) = true ∧
    ((DimmableLight.setBrightness (DimmableLight.FreqStrategy.runtime 9000)
        ⟨0, 20⟩ 100).2 =
      [Ev.setDelay (DimmableLight.semiPeriodOf (DimmableLight.FreqStrategy.runtime 9000) -
        DimmableLight.hwBrightness (DimmableLight.clampInput 100) 20 *
          DimmableLight.semiPeriodOf (DimmableLight.FreqStrategy.runtime 9000) / 255)] ∧
     DimmableLight.semiPeriodOf DimmableLight.FreqStrategy.fixed50 = 10000 ∧
     DimmableLight.semiPeriodOf DimmableLight.FreqStrategy.fixed60 = 8333) :=
  ⟨by decide, c2_delay_forwarded (DimmableLight.FreqStrategy.runtime 9000) ⟨0, 20⟩ 100 (by decide)⟩

/-- C3: `setBrightness(0)` computes hardware brightness 0 for every
configured minimum, in both mapper variants: off is never reinterpreted as
the configured dim minimum. -/
theorem c3_zero_input_off (m : Nat) :
    DimmableLight.hwBrightness (DimmableLight.clampInput 0) m = 0 ∧
    DimmableLightLinearized.hwBrightness (DimmableLightLinearized.clampInput 0) m = 0 :=
  ⟨rfl, rfl⟩

/-- The state component of the linearized `setBrightness` is the stored
clamped input, whatever the frequency strategy decides. -/
theorem lin_setBrightness_fst (t : DimmableLightLinearized.LinStrategy)
    (st : LightState) (b : Nat) :
    (DimmableLightLinearized.setBrightness t st b).1 =
      { st with brightness := DimmableLightLinearized.clampInput b } := by
  cases t with
  | fixed50 => rfl
  | fixed60 => rfl
  | runtime f =>
    simp only [DimmableLightLinearized.setBrightness]
    split
    · rfl
    · split
      · rfl
      · split <;> rfl

/-- C5: after `setBrightness(b)` for any `uint8_t` input `b`, the getter
returns the clamped pre-hardware-mapping value `min b 200`, and any input
above 200 behaves exactly as input 200 (same successor state, same
controller calls), in both mapper variants. -/
theorem c5_getter_returns_clamped_input (s : DimmableLight.FreqStrategy)
    (t : DimmableLightLinearized.LinStrategy) (st : LightState) (b : Nat)
    (hb : b ≤ 255) :
    DimmableLight.getBrightness (DimmableLight.setBrightness s st b).1 = min b 200 ∧
    DimmableLightLinearized.getBrightness
      (DimmableLightLinearized.setBrightness t st b).1 = min b 200 ∧
    (200 < b →
      DimmableLight.setBrightness s st b = DimmableLight.setBrightness s st 200 ∧
      DimmableLightLinearized.setBrightness t st b =
        DimmableLightLinearized.setBrightness t st 200) := by
  refine ⟨?_, ?_, ?_⟩
  · show DimmableLight.clampInput b = min b 200
    exact clampInput_eq_min b hb
  · rw [lin_setBrightness_fst]
    show DimmableLightLinearized.clampInput b = min b 200
    rw [clampInputLin_eq]
    exact clampInput_eq_min b hb
  · intro hgt
    have hcl : DimmableLight.clampInput b = DimmableLight.clampInput 200 := by
      rw [clampInput_eq_min b hb, clampInput_eq_min 200 (by omega)]
      omega
    constructor
    · simp only [DimmableLight.setBrightness]
      rw [hcl]
    · simp only [DimmableLightLinearized.setBrightness, clampInputLin_eq]
      rw [hcl]

/-- Witness for C5 at input 250 under fixed 50 Hz. -/
theorem c5_getter_returns_clamped_input_witness :
    250 ≤ 255 ∧
    (DimmableLight.getBrightness
       (DimmableLight.setBrightness DimmableLight.FreqStrategy.fixed50 ⟨0, 0⟩ 250).1 =
         min 250 200 ∧
     DimmableLightLinearized.getBrightness
       (DimmableLightLinearized.setBrightness DimmableLightLinearized.LinStrategy.fixed50
         ⟨0, 0⟩ 250).1 = min 250 200 ∧
     (200 < 250 →
       DimmableLight.setBrightness DimmableLight.FreqStrategy.fixed50 ⟨0, 0⟩ 250 =
         DimmableLight.setBrightness DimmableLight.FreqStrategy.fixed50 ⟨0, 0⟩ 200 ∧
       DimmableLightLinearized.setBrightness DimmableLightLinearized.LinStrategy.fixed50
         ⟨0, 0⟩ 250 =
         DimmableLightLinearized.setBrightness DimmableLightLinearized.LinStrategy.fixed50
           ⟨0, 0⟩ 200)) :=
  ⟨by decide,
   c5_getter_returns_clamped_input DimmableLight.FreqStrategy.fixed50
     DimmableLightLinearized.LinStrategy.fixed50 ⟨0, 0⟩ 250 (by decide)⟩

/-- C6: under runtime detection at a frequency that is neither exactly 50
nor 60, the linearized `setBrightness` makes a binary decision — `turnOn`
when the hardware brightness is non-zero, `turnOff` when it is zero — and
never forwards a delay. -/
theorem c6_runtime_undefined_freq_binary (f : ℚ) (st : LightState) (bri : Nat)
    (h50 : f ≠ 50) (h60 : f ≠ 60) :
    (DimmableLightLinearized.setBrightness
        (DimmableLightLinearized.LinStrategy.runtime f) st bri).2 =
      (if DimmableLightLinearized.hwBrightness (DimmableLightLinearized.clampInput bri)
            st.mMinBrightness > 0
       then [Ev.turnOn] else [Ev.turnOff]) ∧
    (∀ d, Ev.setDelay d ∉ (DimmableLightLinearized.setBrightness
        (DimmableLightLinearized.LinStrategy.runtime f) st bri).2) ∧
    (∀ q, Ev.setDelayMs q ∉ (DimmableLightLinearized.setBrightness
        (DimmableLightLinearized.LinStrategy.runtime f) st bri).2) := by
  have e : (DimmableLightLinearized.setBrightness
      (DimmableLightLinearized.LinStrategy.runtime f) st bri).2 =
      (if DimmableLightLinearized.hwBrightness (DimmableLightLinearized.clampInput bri)
            st.mMinBrightness > 0
       then [Ev.turnOn] else [Ev.turnOff]) := by
    by_cases hc : DimmableLightLinearized.hwBrightness
        (DimmableLightLinearized.clampInput bri) st.mMinBrightness > 0
    · simp [DimmableLightLinearized.setBrightness, h50, h60, hc]
    · simp [DimmableLightLinearized.setBrightness, h50, h60, hc]
  refine ⟨e, ?_, ?_⟩
  · intro d
    rw [e]
    split <;> simp
  · intro q
    rw [e]
    split <;> simp

/-- Witness for C6 at 45 Hz, input 1 (full conduction) — the case the
specification names. -/
theorem c6_runtime_undefined_freq_binary_witness :
    (45 : ℚ) ≠ 50 ∧ (45 : ℚ) ≠ 60 ∧
    ((DimmableLightLinearized.setBrightness
        (DimmableLightLinearized.LinStrategy.runtime 45) ⟨0, 0⟩ 1).2 =
      (if DimmableLightLinearized.hwBrightness (DimmableLightLinearized.clampInput 1)
            (LightState.mk 0 0).mMinBrightness > 0
       then [Ev.turnOn] else [Ev.turnOff]) ∧
     (∀ d, Ev.setDelay d ∉ (DimmableLightLinearized.setBrightness
        (DimmableLightLinearized.LinStrategy.runtime 45) ⟨0, 0⟩ 1).2) ∧
     (∀ q, Ev.setDelayMs q ∉ (DimmableLightLinearized.setBrightness
        (DimmableLightLinearized.LinStrategy.runtime 45) ⟨0, 0⟩ 1).2)) :=
  ⟨by decide, by decide,
   c6_runtime_undefined_freq_binary 45 ⟨0, 0⟩ 1 (by decide) (by decide)⟩

/-- C9: on a channel in a reachable configuration (stored brightness
non-zero and clamped, stored minimum clamped), `setMinBrightness` with the
current minimum performs exactly the re-application of the current
brightness — the same firing delay as was last forwarded — and that
re-application leaves the state (stored brightness and minimum) unchanged;
and for any argument, the stored minimum afterwards is the `uint8_t`
argument clamped to 55. -/
theorem c9_setMinBrightness_idempotent (s : DimmableLight.FreqStrategy)
    (st : LightState) (m' : Nat) (hb : 0 < st.brightness)
    (hb2 : st.brightness ≤ 200) (hm : st.mMinBrightness ≤ 55) :
    DimmableLight.setMinBrightness s st st.mMinBrightness =
      DimmableLight.setBrightness s st st.brightness ∧
    (DimmableLight.setBrightness s st st.brightness).1 = st ∧
    ((DimmableLight.setMinBrightness s st m').1).mMinBrightness =
      (if m' % 256 > 55 then 55 else m' % 256) := by
  have hm256 : st.mMinBrightness % 256 = st.mMinBrightness :=
    Nat.mod_eq_of_lt (by omega)
  have hcl : DimmableLight.clampInput st.brightness = st.brightness := by
    rw [clampInput_eq_min st.brightness (by omega)]
    omega
  refine ⟨?_, ?_, ?_⟩
  · simp only [DimmableLight.setMinBrightness, DimmableLight.MAX_MIN_BRIGHTNESS, hm256]
    rw [if_neg (by omega : ¬ st.mMinBrightness > 55)]
    have hst : ({ st with mMinBrightness := st.mMinBrightness } : LightState) = st := rfl
    rw [hst, if_pos hb]
  · simp only [DimmableLight.setBrightness]
    rw [hcl]
  · simp only [DimmableLight.setMinBrightness, DimmableLight.MAX_MIN_BRIGHTNESS]
    split
    · simp only [DimmableLight.setBrightness]
    · rfl

/-- Witness for C9 at state `⟨128, 30⟩` with argument 300 (clamped via
`uint8_t` to 44), under fixed 50 Hz. -/
theorem c9_setMinBrightness_idempotent_witness :
    0 < (LightState.mk 128 30).brightness ∧
    (LightState.mk 128 30).brightness ≤ 200 ∧
    (LightState.mk 128 30).mMinBrightness ≤ 55 ∧
    (DimmableLight.setMinBrightness DimmableLight.FreqStrategy.fixed50
        (LightState.mk 128 30) (LightState.mk 128 30).mMinBrightness =
      DimmableLight.setBrightness DimmableLight.FreqStrategy.fixed50
        (LightState.mk 128 30) (LightState.mk 128 30).brightness ∧
     (DimmableLight.setBrightness DimmableLight.FreqStrategy.fixed50
        (LightState.mk 128 30) (LightState.mk 128 30).brightness).1 =
       LightState.mk 128 30 ∧
     ((DimmableLight.setMinBrightness DimmableLight.FreqStrategy.fixed50
        (LightState.mk 128 30) 300).1).mMinBrightness =
       (if 300 % 256 > 55 then 55 else 300 % 256)) :=
  ⟨by decide, by decide, by decide,
   c9_setMinBrightness_idempotent DimmableLight.FreqStrategy.fixed50
     (LightState.mk 128 30) 300 (by decide) (by decide) (by decide)⟩

/-- C10: at the maximum input 200 the hardware brightness is exactly 255
for every configured minimum in 0..55, in both mapper variants; hence
`turnOn` of the phase-delay variant forwards the delay computed from
hardware brightness 255. -/
theorem c10_full_power_reachable (m : Nat) (hm : m ≤ 55)
    (s : DimmableLight.FreqStrategy) (st : LightState)
    (hst : st.mMinBrightness ≤ 55) :
    DimmableLight.hwBrightness 200 m = 255 ∧
    DimmableLightLinearized.hwBrightness 200 m = 255 ∧
    (DimmableLight.turnOn s st).2 =
      [Ev.setDelay (DimmableLight.delayFor s 255)] := by
  have key : ∀ mm, mm ≤ 55 → DimmableLight.hwBrightness 200 mm = 255 := by
    intro mm hmm
    rw [hwBrightness_eq_formula 200 mm (by omega) (by omega) hmm]
    by_cases h0 : mm = 0
    · rw [if_pos h0]
    · rw [if_neg h0]
      have h199 : (200 - 1) * (255 - mm) / 199 = 255 - mm := by
        rw [show (200 - 1) = 199 from rfl,
            Nat.mul_div_cancel_left _ (by norm_num : (0:ℕ) < 199)]
      omega
  refine ⟨key m hm, ?_, ?_⟩
  · rw [hwBrightnessLin_eq_hw]
    exact key m hm
  · have e : (DimmableLight.turnOn s st).2 =
        [Ev.setDelay (DimmableLight.delayFor s
          (DimmableLight.hwBrightness 200 st.mMinBrightness))] := rfl
    rw [e, key st.mMinBrightness hst]

/-- Witness for C10 at minimum 30 under fixed 60 Hz. -/
theorem c10_full_power_reachable_witness :
    30 ≤ 55 ∧ (LightState.mk 0 30).mMinBrightness ≤ 55 ∧
    (DimmableLight.hwBrightness 200 30 = 255 ∧
     DimmableLightLinearized.hwBrightness 200 30 = 255 ∧
     (DimmableLight.turnOn DimmableLight.FreqStrategy.fixed60 (LightState.mk 0 30)).2 =
       [Ev.setDelay (DimmableLight.delayFor DimmableLight.FreqStrategy.fixed60 255)]) :=
  ⟨by decide, by decide,
   c10_full_power_reachable 30 (by decide) DimmableLight.FreqStrategy.fixed60
     (LightState.mk 0 30) (by decide)⟩

/-- C7: the registry counter is not protected against destructor underflow.
Nine constructions against capacity 8 correctly leave the counter at 8 (the
ninth construction does not increment), but the destructor decrements
unconditionally, so the realizable lifecycle "construct nine channels, then
destroy all nine" — every destructor call destroying an existing object —
drives the `uint8_t` counter to 255, which is the wrap of -1 and exceeds
the capacity 8. -/
theorem c7_registry_counter_underflow :
    regRun 8 0 (List.replicate 9 RegOp.mkLight) = 8 ∧
    objValid 0 (List.replicate 9 RegOp.mkLight ++
      List.replicate 9 RegOp.destroyLight) = true ∧
    regRun 8 0 (List.replicate 9 RegOp.mkLight ++
      List.replicate 9 RegOp.destroyLight) = 255 ∧
    8 < regRun 8 0 (List.replicate 9 RegOp.mkLight ++
      List.replicate 9 RegOp.destroyLight) := by
  decide

/-- C8: a channel constructed while the counter already equals the capacity
8 leaves the counter at 8, but it is not inert: its `setBrightness` still
forwards a `setDelay` call to the controller (here fixed 50 Hz, input 100,
forwarded delay 5020 us). -/
theorem c8_overCapacity_channel_not_inert :
    (constructLight 8 8 0).1 = 8 ∧
    (DimmableLight.setBrightness DimmableLight.FreqStrategy.fixed50
        (constructLight 8 8 0).2 100).2 = [Ev.setDelay 5020] ∧
    (DimmableLight.setBrightness DimmableLight.FreqStrategy.fixed50
        (constructLight 8 8 0).2 100).2 ≠ [] := by
  decide
